import Mathlib

/-!
Shallow embedding of the registry resolution subsystem declared in
`include/vcpkg/registries.h` (vcpkg-tool).

The repository snapshot contains only the header: the data model below
(`LockFile`, `EntryData`, `Registry`, `RegistrySet`, `VersionDbEntry`,
`VersionDbType`, the `modified = false` default initializer) is translated
from the header, while the bodies of the declared member functions
(`registry_for_port`, `registries_for_port`, `baseline_for_port`,
`is_default_builtin_registry`, `get_or_fetch`, `ensure_up_to_date`,
`visit_object`, `package_match_prefix`, `is_git_commit_sha`, the `Registry`
constructor) live in a source file that is not part of the snapshot and are
therefore modelled from the specification's description of them.
-/

namespace VcpkgRegistries

/-- Version of a port: version text plus the port-version counter
(`vcpkg/versions.h`, external to the snapshot; only its identity matters
here). -/
structure Version where
  text : String
  port_version : Nat
deriving DecidableEq, Repr

/-- Version comparison scheme attached to a database row. -/
inductive VersionScheme where
  | Relaxed
  | Semver
  | Date
  | String
deriving DecidableEq, Repr

/-- Modelled from the spec: `is_git_commit_sha` (declared in the header,
body missing from the snapshot) recognises a well-formed git object id,
described as a "40-hex-character git object id". -/
def is_git_commit_sha (s : String) : Bool :=
  s.length = 40 && s.toList.all fun c => c.isDigit || ('a' ≤ c && c ≤ 'f')

/-- A registry backend (`RegistryImplementation` in the header). The header
declares it as an abstract interface with `kind()`, `get_baseline_version`
and a possible baseline pin; here it is a concrete record: the discriminant
string, the optional baseline override, and the baseline map
`get_baseline_version` consults, so that backends compare by value. -/
structure RegistryImplementation where
  implKind : String
  baselineOverride : Option String
  baselines : List (String × Version)
deriving DecidableEq, Repr

/-- Modelled from the spec: `get_baseline_version` "resolves the default
version; fails if the baseline file/commit/entry is missing or malformed".
The backend's baseline table stands in for the baseline file. -/
def RegistryImplementation.get_baseline_version (impl : RegistryImplementation)
    (port_name : String) : Except String Version :=
  match impl.baselines.lookup port_name with
  | some v => Except.ok v
  | none => Except.error ("no baseline entry for " ++ port_name)

/-- Modelled from the spec: the builtin backend constructor with no explicit
baseline ("use the current tree"). -/
def make_builtin_registry (baselines : List (String × Version)) : RegistryImplementation :=
  { implKind := "builtin", baselineOverride := none, baselines := baselines }

/-- Modelled from the spec: the builtin backend constructor pinned to "a
specific baseline identifier". -/
def make_builtin_registry_with_baseline (baseline : String)
    (baselines : List (String × Version)) : RegistryImplementation :=
  { implKind := "builtin", baselineOverride := some baseline, baselines := baselines }

/-- Modelled from the spec: `package_match_prefix` (declared in the header,
body missing from the snapshot) matches "a single trailing-wildcard pattern
(`prefix*`) against a candidate package name" and "returns a
match-specificity score (longer literal prefix => higher precedence)"; a
non-matching pattern scores zero. The score of a match is the length of the
literal part of the pattern plus one, so that the bare pattern `*` still
scores positively. -/
def package_match_prefix (name pattern : String) : Nat :=
  if pattern.data.getLast? = some '*' && pattern.data.dropLast.isPrefixOf name.data then
    pattern.data.dropLast.length + 1
  else 0

/-- Non-default registry binding (`Registry` in the header): the package
name/pattern list plus the owned backend. In the header the backend is a
non-null owning pointer; here it is held by value. -/
structure Registry where
  packages_ : List String
  implementation_ : RegistryImplementation
deriving DecidableEq, Repr

/-- Accessor `Registry::packages()`. -/
def Registry.packages (r : Registry) : List String := r.packages_

/-- Accessor `Registry::implementation()`. -/
def Registry.implementation (r : Registry) : RegistryImplementation := r.implementation_

/-- Modelled from the spec: the `Registry` constructor (declared in the
header, body missing from the snapshot) stores the supplied package list
"sorted-unique": per the header comment the stored list is "always ordered
lexicographically" and per the spec it is "lexicographically sorted and
deduplicated" whatever the construction input. -/
def Registry.make (packages : List String) (impl : RegistryImplementation) : Registry :=
  { packages_ := (List.insertionSort (· ≤ ·) packages).dedup, implementation_ := impl }

/-- Modelled from the spec: whether a non-default registry declares the
port name, by "exact match, or the name matches a registered wildcard
pattern via the prefix matcher". -/
def Registry.declaresPort (r : Registry) (name : String) : Bool :=
  r.packages_.any fun p => name == p || package_match_prefix name p != 0

/-- The aggregate configuration (`RegistrySet` in the header): one optional
default backend plus the ordered list of non-default registries. -/
structure RegistrySet where
  default_registry_ : Option RegistryImplementation
  registries_ : List Registry
deriving DecidableEq, Repr

/-- Accessor `RegistrySet::registries()`. -/
def RegistrySet.registries (s : RegistrySet) : List Registry := s.registries_

/-- Accessor `RegistrySet::default_registry()`. -/
def RegistrySet.default_registry (s : RegistrySet) : Option RegistryImplementation :=
  s.default_registry_

/-- Modelled from the spec: `registry_for_port` (declared in the header,
body missing from the snapshot). "A port name resolves to the first
non-default `Registry` in priority order whose package list contains that
name ...; if none matches, it resolves to the default backend, if any;
otherwise the port has no registry". -/
def RegistrySet.registry_for_port (s : RegistrySet) (port_name : String) :
    Option RegistryImplementation :=
  match s.registries_.find? (fun r => r.declaresPort port_name) with
  | some r => some r.implementation_
  | none => s.default_registry_

/-- Modelled from the spec: `registries_for_port` (declared in the header,
body missing from the snapshot) "returns every backend that could resolve
the name, ordered by the same priority": the matching non-default
registries in list order, then the default backend when one is set. -/
def RegistrySet.registries_for_port (s : RegistrySet) (name : String) :
    List RegistryImplementation :=
  (s.registries_.filter (fun r => r.declaresPort name)).map (fun r => r.implementation_)
    ++ s.default_registry_.toList

/-- Modelled from the spec: `baseline_for_port` (declared in the header,
body missing from the snapshot) "resolves the winning backend via
`registry_for_port`, then calls its `get_baseline_version`; fails with 'no
registry for port' if none matched". -/
def RegistrySet.baseline_for_port (s : RegistrySet) (port_name : String) :
    Except String Version :=
  match s.registry_for_port port_name with
  | some impl => impl.get_baseline_version port_name
  | none => Except.error "no registry for port"

/-- Modelled from the spec: `is_default_builtin_registry` (declared in the
header, body missing from the snapshot) is "true iff the default backend's
kind is 'builtin' with no baseline override and the registries list is
empty". -/
def RegistrySet.is_default_builtin_registry (s : RegistrySet) : Bool :=
  match s.default_registry_ with
  | some d => d.implKind == "builtin" && d.baselineOverride.isNone && s.registries_.isEmpty
  | none => false

/-- Modelled from the spec: `has_modifications` is "true iff a default
backend is set or the registries list is non-empty". -/
def RegistrySet.has_modifications (s : RegistrySet) : Bool :=
  s.default_registry_.isSome || !s.registries_.isEmpty

/-- One pinned reference (`LockFile::EntryData` in the header): symbolic
reference, resolved commit id, staleness flag. -/
structure EntryData where
  reference : String
  commit_id : String
  stale : Bool
deriving DecidableEq, Repr

/-- The lock file (`LockFile` in the header): the multimap from repository
URI to `EntryData` — modelled as an association list, which like the C++
multimap may hold several entries per URI — plus the dirty flag, whose
in-class initializer in the header is `modified = false`. -/
structure LockFile where
  lockdata : List (String × EntryData)
  modified : Bool
deriving DecidableEq, Repr

/-- A default-constructed `LockFile`: the multimap is empty and the header's
in-class initializer sets `modified = false`. -/
def LockFile.new : LockFile := { lockdata := [], modified := false }

/-- Lookup step shared by the lock-file operations: the first entry whose
repository URI and symbolic reference both match, as `equal_range` plus
`find_if` would locate it in the C++ multimap. -/
def LockFile.lookup_entry (lf : LockFile) (repo reference : String) :
    Option (String × EntryData) :=
  lf.lockdata.find? fun p => p.1 == repo && p.2.reference == reference

/-- Modelled from the spec: `LockFile::get_or_fetch` (declared in the
header, body missing from the snapshot) "looks up an existing `EntryData`
for (repo, reference). If present and not stale, returns a cursor to it
unchanged. If absent, performs a fetch (via the external version-control
collaborator) to resolve `reference` to a commit id, inserts a new
non-stale entry, marks the lock file dirty, and returns a cursor"; a stale
hit is likewise returned as found, its refresh being `ensure_up_to_date`'s
job. The external collaborator is the `fetch` argument, and the third
component of the result counts how many fetches were performed. -/
def LockFile.get_or_fetch (lf : LockFile) (fetch : String → String → String)
    (repo reference : String) : LockFile × EntryData × Nat :=
  match lf.lookup_entry repo reference with
  | some p => (lf, p.2, 0)
  | none =>
    let e : EntryData := { reference := reference, commit_id := fetch repo reference, stale := false }
    ({ lockdata := lf.lockdata ++ [(repo, e)], modified := true }, e, 1)

/-- Modelled from the spec: `LockFile::Entry::ensure_up_to_date` (declared
in the header, body missing from the snapshot) is the "explicit
user-triggered refresh of one entry; always re-resolves regardless of
staleness flag, and updates it", clearing staleness and marking the lock
file dirty. The header's `Entry` is a cursor into the map; here the cursor
is the index `i` into `lockdata`, and an out-of-range index leaves the lock
file untouched. The second component of the result counts fetches. -/
def LockFile.ensure_up_to_date (lf : LockFile) (fetch : String → String → String)
    (i : Nat) : LockFile × Nat :=
  match lf.lockdata[i]? with
  | none => (lf, 0)
  | some (uri, e) =>
    ({ lockdata := lf.lockdata.set i
         (uri, { e with commit_id := fetch uri e.reference, stale := false }),
       modified := true }, 1)

/-- One row of a version database (`VersionDbEntry` in the header): per the
header comment, "only one of these may be non-empty" among `git_tree` and
the path `p`. -/
structure VersionDbEntry where
  version : Version
  scheme : VersionScheme
  git_tree : String
  p : String
deriving DecidableEq, Repr

/-- The two on-disk version-database encodings (`VersionDbType` in the
header): Git rows carry a `git-tree` id, Filesystem rows carry a `path`. -/
inductive VersionDbType where
  | Git
  | Filesystem
deriving DecidableEq, Repr

/-- The single-entry deserializer (`VersionDbEntryDeserializer` in the
header): the database type selected at construction plus the registry root
against which filesystem paths are resolved. -/
structure VersionDbEntryDeserializer where
  type : VersionDbType
  registry_root : String
deriving DecidableEq, Repr

/-- A version-database JSON object as the deserializer sees it: the decoded
version and scheme fields, and the optional `git-tree` and `path` fields
(`none` means the field is absent). -/
structure VersionDbObj where
  version : Version
  scheme : VersionScheme
  gitTree : Option String
  path : Option String
deriving DecidableEq, Repr

/-- Modelled from the spec: joining a relative database path onto the
registry root supplied at deserializer construction ("resolved relative to
a registry root"). -/
def resolve_registry_path (root rel : String) : String := root ++ "/" ++ rel

/-- Modelled from the spec: `VersionDbEntryDeserializer::visit_object`
(declared in the header, body missing from the snapshot) "validates that
exactly one of `git-tree`/`path` is present, matching the constructed
`VersionDbType`, and fails with a schema error otherwise"; a `git-tree`
value "must be validated as a well-formed git object id", and a `path` is
resolved against the registry root. `none` is the schema-error outcome. -/
def VersionDbEntryDeserializer.visit_object (d : VersionDbEntryDeserializer)
    (obj : VersionDbObj) : Option VersionDbEntry :=
  match d.type, obj.gitTree, obj.path with
  | VersionDbType.Git, some t, none =>
    if is_git_commit_sha t then
      some { version := obj.version, scheme := obj.scheme, git_tree := t, p := "" }
    else none
  | VersionDbType.Filesystem, none, some rel =>
    some { version := obj.version, scheme := obj.scheme, git_tree := "",
           p := resolve_registry_path d.registry_root rel }
  | _, _, _ => none

/-! Helper lemmas about `List.find?`, shared by the resolution theorems. -/

/-- Helper: `find?` returns the element at the first index whose element
satisfies the predicate. -/
theorem find?_eq_get_of_first {α : Type} (p : α → Bool) (l : List α) :
    ∀ (i : Nat) (h : i < l.length), p (l.get ⟨i, h⟩) = true →
      (∀ (j : Nat) (hj : j < l.length), j < i → p (l.get ⟨j, hj⟩) = false) →
      l.find? p = some (l.get ⟨i, h⟩) := by
  induction l with
  | nil => intro i h _ _; exact absurd h (Nat.not_lt_zero i)
  | cons a t ih =>
    intro i h hp hmin
    cases i with
    | zero => exact List.find?_cons_of_pos t hp
    | succ k =>
      have ha : p a = false := hmin 0 (Nat.succ_pos _) (Nat.succ_pos _)
      rw [List.find?_cons_of_neg t (by simp [ha])]
      exact ih k (Nat.lt_of_succ_lt_succ h) hp
        (fun j hj hjk => hmin (j + 1) (Nat.succ_lt_succ hj) (Nat.succ_lt_succ hjk))

/-- Helper: `find?` is the head of the filtered list. -/
theorem find?_eq_head?_filter {α : Type} (p : α → Bool) (l : List α) :
    l.find? p = (l.filter p).head? := by
  induction l with
  | nil => rfl
  | cons a t ih =>
    by_cases hpa : p a = true
    · rw [List.find?_cons_of_pos t hpa, List.filter_cons_of_pos hpa]; rfl
    · rw [List.find?_cons_of_neg t hpa, List.filter_cons_of_neg (by simpa using hpa)]
      exact ih

/-! Concrete configuration used by the witnesses. -/

/-- Witness backend: a git backend scoped to the boost ports. -/
def exImplBoost : RegistryImplementation :=
  { implKind := "git", baselineOverride := none,
    baselines := [("boost-asio", { text := "1.81.0", port_version := 0 })] }

/-- Witness backend: a builtin default backend. -/
def exImplDefault : RegistryImplementation :=
  make_builtin_registry [("zlib", { text := "1.3.1", port_version := 0 })]

/-- Witness configuration: one non-default registry claiming `boost-*`,
plus a builtin default. -/
def exSet : RegistrySet :=
  { default_registry_ := some exImplDefault,
    registries_ := [Registry.make ["boost-*"] exImplBoost] }

/-- C4: whatever the order and duplication of the package names supplied at
construction, the package list a `Registry` stores is lexicographically
sorted ascending and free of duplicates; the registry being an immutable
value, this persists across every later operation. -/
theorem C4_registry_packages_sorted_unique (packages : List String)
    (impl : RegistryImplementation) :
    List.Sorted (· ≤ ·) (Registry.make packages impl).packages_
    ∧ (Registry.make packages impl).packages_.Nodup
    ∧ List.Sorted (· < ·) (Registry.make packages impl).packages_ := by
  have hs : List.Sorted (· ≤ ·) (List.insertionSort (· ≤ ·) packages) :=
    List.sorted_insertionSort (· ≤ ·) packages
  have hsub : (List.insertionSort (· ≤ ·) packages).dedup.Sublist
      (List.insertionSort (· ≤ ·) packages) := List.dedup_sublist _
  have hsorted := List.Pairwise.sublist hsub hs
  have hnodup := List.nodup_dedup (List.insertionSort (· ≤ ·) packages)
  exact ⟨hsorted, hnodup, List.Sorted.lt_of_le hsorted hnodup⟩

/-- C5: `is_default_builtin_registry` holds exactly when the default
backend exists with kind `builtin` and no baseline override and the
registries list is empty; it is false when either condition fails. -/
theorem C5_is_default_builtin_registry_iff (s : RegistrySet) :
    s.is_default_builtin_registry = true ↔
      ((∃ d, s.default_registry_ = some d ∧ d.implKind = "builtin"
          ∧ d.baselineOverride = none)
        ∧ s.registries_ = []) := by
  unfold RegistrySet.is_default_builtin_registry
  cases hd : s.default_registry_ with
  | none => simp
  | some d =>
    simp only [Bool.and_eq_true, beq_iff_eq, Option.isNone_iff_eq_none, List.isEmpty_iff,
      Option.some.injEq]
    constructor
    · rintro ⟨⟨hk, hb⟩, hr⟩
      exact ⟨⟨d, rfl, hk, hb⟩, hr⟩
    · rintro ⟨⟨d', hd', hk, hb⟩, hr⟩
      cases hd'
      exact ⟨⟨hk, hb⟩, hr⟩

/-- C8: among trailing-wildcard patterns matching the same candidate name,
the specificity score is positive and strictly increases with the length of
the pattern's literal stem. -/
theorem C8_match_specificity_increasing (name p1 p2 : String)
    (h1 : package_match_prefix name p1 ≠ 0)
    (h2 : package_match_prefix name p2 ≠ 0)
    (hlen : p1.data.dropLast.length < p2.data.dropLast.length) :
    0 < package_match_prefix name p1
    ∧ package_match_prefix name p1 < package_match_prefix name p2 := by
  unfold package_match_prefix at h1 h2 ⊢
  by_cases c1 : (p1.data.getLast? = some '*' && p1.data.dropLast.isPrefixOf name.data) = true
  · by_cases c2 : (p2.data.getLast? = some '*' && p2.data.dropLast.isPrefixOf name.data) = true
    · rw [if_pos c1, if_pos c2]
      omega
    · rw [if_neg c2] at h2
      exact absurd rfl h2
  · rw [if_neg c1] at h1
    exact absurd rfl h1

/-- Witness for C8 at the spec's own example: `boost-*` beats `b*` on
`boost-asio`, both scores being positive. -/
theorem C8_witness :
    0 < package_match_prefix "boost-asio" "b*"
    ∧ package_match_prefix "boost-asio" "b*"
        < package_match_prefix "boost-asio" "boost-*" :=
  C8_match_specificity_increasing "boost-asio" "b*" "boost-*"
    (by decide) (by decide) (by decide)

/-- C9: `baseline_for_port` is exactly `get_baseline_version` on the
backend chosen by `registry_for_port`, and is the "no registry for port"
error when no backend is chosen. -/
theorem C9_baseline_for_port_delegates (s : RegistrySet) (port_name : String) :
    (∀ impl, s.registry_for_port port_name = some impl →
        s.baseline_for_port port_name = impl.get_baseline_version port_name)
    ∧ (s.registry_for_port port_name = none →
        s.baseline_for_port port_name = Except.error "no registry for port") := by
  constructor
  · intro impl h
    unfold RegistrySet.baseline_for_port
    rw [h]
  · intro h
    unfold RegistrySet.baseline_for_port
    rw [h]

/-- Witness for C9: on the concrete configuration the baseline for
`boost-asio` is the boost backend's answer, and the empty configuration
yields the "no registry for port" error. -/
theorem C9_witness :
    exSet.baseline_for_port "boost-asio"
      = exImplBoost.get_baseline_version "boost-asio"
    ∧ (RegistrySet.mk none []).baseline_for_port "zlib"
      = Except.error "no registry for port" :=
  ⟨(C9_baseline_for_port_delegates exSet "boost-asio").1 exImplBoost rfl,
    (C9_baseline_for_port_delegates (RegistrySet.mk none []) "zlib").2 rfl⟩

/-- C1: `registry_for_port` resolves a name to the backend of the first
non-default registry in list order that declares it (exact name or wildcard
pattern), regardless of the default backend; when no non-default registry
matches it yields the default backend, which is `none` when unset. -/
theorem C1_registry_for_port_priority (s : RegistrySet) (name : String) :
    (∀ (i : Nat) (h : i < s.registries_.length),
        (s.registries_.get ⟨i, h⟩).declaresPort name = true →
        (∀ (j : Nat) (hj : j < s.registries_.length), j < i →
            (s.registries_.get ⟨j, hj⟩).declaresPort name = false) →
        s.registry_for_port name = some (s.registries_.get ⟨i, h⟩).implementation_)
    ∧ ((∀ r ∈ s.registries_, r.declaresPort name = false) →
        s.registry_for_port name = s.default_registry_) := by
  constructor
  · intro i h hp hmin
    unfold RegistrySet.registry_for_port
    rw [find?_eq_get_of_first (fun r => r.declaresPort name) s.registries_ i h hp hmin]
  · intro hnone
    unfold RegistrySet.registry_for_port
    rw [List.find?_eq_none.mpr (fun x hx => by simp [hnone x hx])]

/-- Witness for C1: on the concrete configuration the boost registry beats
the builtin default for `boost-asio`, `zlib` falls back to the default, and
without a default an unmatched port has no registry. -/
theorem C1_witness :
    exSet.registry_for_port "boost-asio" = some exImplBoost
    ∧ exSet.registry_for_port "zlib" = some exImplDefault
    ∧ (RegistrySet.mk none [Registry.make ["boost-*"] exImplBoost]).registry_for_port
        "zlib" = none := by
  refine ⟨?_, ?_, ?_⟩
  · exact (C1_registry_for_port_priority exSet "boost-asio").1 0 (by decide) (by decide)
      (fun j hj hj0 => absurd hj0 (Nat.not_lt_zero j))
  · exact (C1_registry_for_port_priority exSet "zlib").2 (by decide)
  · exact (C1_registry_for_port_priority
      (RegistrySet.mk none [Registry.make ["boost-*"] exImplBoost]) "zlib").2 (by decide)

/-- C7: `registries_for_port` lists every backend able to resolve the name
— the matching non-default registries in priority order, then the default
when set — so it is empty exactly when `registry_for_port` yields nothing,
and otherwise its first element is `registry_for_port`'s answer. -/
theorem C7_registries_for_port_consistent (s : RegistrySet) (name : String) :
    s.registries_for_port name
      = (s.registries_.filter (fun r => r.declaresPort name)).map
          (fun r => r.implementation_) ++ s.default_registry_.toList
    ∧ (s.registries_for_port name = [] ↔ s.registry_for_port name = none)
    ∧ (∀ impl rest, s.registries_for_port name = impl :: rest →
        s.registry_for_port name = some impl) := by
  refine ⟨rfl, ?_, ?_⟩
  · unfold RegistrySet.registries_for_port RegistrySet.registry_for_port
    rw [find?_eq_head?_filter]
    cases hf : s.registries_.filter (fun r => r.declaresPort name) with
    | nil => cases hd : s.default_registry_ with
      | none => simp
      | some d => simp
    | cons r t => simp
  · intro impl rest heq
    unfold RegistrySet.registries_for_port at heq
    unfold RegistrySet.registry_for_port
    rw [find?_eq_head?_filter]
    cases hf : s.registries_.filter (fun r => r.declaresPort name) with
    | nil =>
      rw [hf] at heq
      cases hd : s.default_registry_ with
      | none => rw [hd] at heq; simp at heq
      | some d =>
        rw [hd] at heq
        simp only [List.map_nil, List.nil_append, Option.toList_some, List.cons.injEq] at heq
        simp [heq.1]
    | cons r t =>
      rw [hf] at heq
      simp only [List.map_cons, List.cons_append, List.cons.injEq] at heq
      simp [heq.1]

/-- Witness for C7: on the concrete configuration the candidate list for
`zlib` is just the default backend, whose head agrees with
`registry_for_port`. -/
theorem C7_witness :
    exSet.registry_for_port "zlib" = some exImplDefault :=
  (C7_registries_for_port_consistent exSet "zlib").2.2 exImplDefault [] rfl

/-- Helper: `get_or_fetch` on a hit returns the found entry, the unchanged
lock file and no fetch. -/
theorem get_or_fetch_found (lf : LockFile) (fetch : String → String → String)
    (repo reference : String) (p : String × EntryData)
    (h : lf.lookup_entry repo reference = some p) :
    lf.get_or_fetch fetch repo reference = (lf, p.2, 0) := by
  unfold LockFile.get_or_fetch
  rw [h]

/-- Helper: `get_or_fetch` on a miss fetches once, appends a fresh
non-stale entry and sets the dirty flag. -/
theorem get_or_fetch_absent (lf : LockFile) (fetch : String → String → String)
    (repo reference : String) (h : lf.lookup_entry repo reference = none) :
    lf.get_or_fetch fetch repo reference
      = (LockFile.mk (lf.lockdata ++ [(repo,
            { reference := reference, commit_id := fetch repo reference, stale := false })]) true,
          { reference := reference, commit_id := fetch repo reference, stale := false }, 1) := by
  unfold LockFile.get_or_fetch
  rw [h]

/-- Helper: after a miss-driven insertion the lookup finds the appended
entry. -/
theorem lookup_entry_append_self (lf : LockFile) (repo reference c : String)
    (h : lf.lookup_entry repo reference = none) :
    (LockFile.mk (lf.lockdata ++ [(repo,
        { reference := reference, commit_id := c, stale := false })]) true).lookup_entry
        repo reference
      = some (repo, { reference := reference, commit_id := c, stale := false }) := by
  unfold LockFile.lookup_entry at h ⊢
  rw [List.find?_append, h]
  simp

/-- C2: `get_or_fetch` returns a found non-stale entry untouched with no
fetch; on a miss it fetches exactly once, appends a non-stale entry, sets
the dirty flag and returns that entry; hence two consecutive calls for the
same pair fetch at most once in total and return equal commit ids. -/
theorem C2_get_or_fetch_cache (lf : LockFile) (fetch : String → String → String)
    (repo reference : String) :
    (∀ u e, lf.lookup_entry repo reference = some (u, e) → e.stale = false →
        lf.get_or_fetch fetch repo reference = (lf, e, 0))
    ∧ (lf.lookup_entry repo reference = none →
        (lf.get_or_fetch fetch repo reference).2.2 = 1
        ∧ (lf.get_or_fetch fetch repo reference).2.1
            = { reference := reference, commit_id := fetch repo reference, stale := false }
        ∧ (lf.get_or_fetch fetch repo reference).1.modified = true
        ∧ (lf.get_or_fetch fetch repo reference).1.lockdata
            = lf.lockdata ++ [(repo,
                { reference := reference, commit_id := fetch repo reference, stale := false })])
    ∧ ((lf.get_or_fetch fetch repo reference).2.2
          + ((lf.get_or_fetch fetch repo reference).1.get_or_fetch fetch repo
              reference).2.2 ≤ 1
        ∧ ((lf.get_or_fetch fetch repo reference).1.get_or_fetch fetch repo
              reference).2.1.commit_id
          = (lf.get_or_fetch fetch repo reference).2.1.commit_id) := by
  refine ⟨?_, ?_, ?_⟩
  · intro u e h _
    exact get_or_fetch_found lf fetch repo reference (u, e) h
  · intro h
    rw [get_or_fetch_absent lf fetch repo reference h]
    exact ⟨rfl, rfl, rfl, rfl⟩
  · cases h : lf.lookup_entry repo reference with
    | some p => simp [get_or_fetch_found lf fetch repo reference p h]
    | none =>
      have h2 := get_or_fetch_found
        (LockFile.mk (lf.lockdata ++ [(repo,
          { reference := reference, commit_id := fetch repo reference, stale := false })]) true)
        fetch repo reference
        (repo, { reference := reference, commit_id := fetch repo reference, stale := false })
        (lookup_entry_append_self lf repo reference (fetch repo reference) h)
      rw [get_or_fetch_absent lf fetch repo reference h]
      simp [h2]

/-- Witness lock file for C2: one fresh entry pinning `main`. -/
def exLock : LockFile :=
  { lockdata := [("https://x/y",
      { reference := "main", commit_id := "abc", stale := false })],
    modified := false }

/-- Witness for C2: a hit returns the cached entry with no fetch and no
mutation, and a miss on an empty lock file performs exactly one fetch. -/
theorem C2_witness :
    exLock.get_or_fetch (fun _ _ => "def") "https://x/y" "main"
      = (exLock, { reference := "main", commit_id := "abc", stale := false }, 0)
    ∧ (LockFile.new.get_or_fetch (fun _ _ => "c1") "https://x/y" "main").2.2 = 1 :=
  ⟨(C2_get_or_fetch_cache exLock (fun _ _ => "def") "https://x/y" "main").1
      "https://x/y" { reference := "main", commit_id := "abc", stale := false } rfl rfl,
    ((C2_get_or_fetch_cache LockFile.new (fun _ _ => "c1") "https://x/y" "main").2.1 rfl).1⟩

/-- C6: `ensure_up_to_date` on a valid cursor re-resolves unconditionally —
whatever the stale flag held and even when the fetched commit id is
unchanged — storing the fetched commit id, clearing staleness and setting
the dirty flag. -/
theorem C6_ensure_up_to_date_refreshes (lf : LockFile)
    (fetch : String → String → String) (i : Nat) (uri : String) (e : EntryData)
    (h : lf.lockdata[i]? = some (uri, e)) :
    (lf.ensure_up_to_date fetch i).2 = 1
    ∧ (lf.ensure_up_to_date fetch i).1.modified = true
    ∧ (lf.ensure_up_to_date fetch i).1.lockdata
        = lf.lockdata.set i (uri,
            { reference := e.reference, commit_id := fetch uri e.reference, stale := false })
    ∧ ((lf.ensure_up_to_date fetch i).1.lockdata)[i]?
        = some (uri,
            { reference := e.reference, commit_id := fetch uri e.reference, stale := false }) := by
  have hlen : i < lf.lockdata.length := (List.getElem?_eq_some.mp h).1
  unfold LockFile.ensure_up_to_date
  rw [h]
  exact ⟨rfl, rfl, rfl, List.getElem?_set_self hlen⟩

/-- Witness lock file for C6: one stale entry. -/
def exLockStale : LockFile :=
  { lockdata := [("https://x/y",
      { reference := "main", commit_id := "abc", stale := true })],
    modified := false }

/-- Witness for C6 on a stale entry whose refresh returns the identical
commit id: the fetch still happens, staleness is cleared and the lock file
is marked dirty. -/
theorem C6_witness :
    (exLockStale.ensure_up_to_date (fun _ _ => "abc") 0).2 = 1
    ∧ (exLockStale.ensure_up_to_date (fun _ _ => "abc") 0).1.modified = true
    ∧ (exLockStale.ensure_up_to_date (fun _ _ => "abc") 0).1.lockdata
        = [("https://x/y", { reference := "main", commit_id := "abc", stale := false })]
    ∧ ((exLockStale.ensure_up_to_date (fun _ _ => "abc") 0).1.lockdata)[0]?
        = some ("https://x/y",
            { reference := "main", commit_id := "abc", stale := false }) :=
  C6_ensure_up_to_date_refreshes exLockStale (fun _ _ => "abc") 0 "https://x/y"
    { reference := "main", commit_id := "abc", stale := true } rfl

/-- C10: a default-constructed lock file has an empty multimap and a clear
dirty flag, and neither lock-file operation sets the dirty flag except when
it performed its mutation (a miss-driven insertion for `get_or_fetch`, a
valid-cursor refresh for `ensure_up_to_date`). -/
theorem C10_modified_only_by_mutation :
    LockFile.new.lockdata = [] ∧ LockFile.new.modified = false
    ∧ (∀ (lf : LockFile) (fetch : String → String → String) (repo reference : String),
        (lf.get_or_fetch fetch repo reference).1.modified = lf.modified
        ∨ (lf.get_or_fetch fetch repo reference).2.2 = 1)
    ∧ (∀ (lf : LockFile) (fetch : String → String → String) (i : Nat),
        (lf.ensure_up_to_date fetch i).1.modified = lf.modified
        ∨ (lf.ensure_up_to_date fetch i).2 = 1) := by
  refine ⟨rfl, rfl, ?_, ?_⟩
  · intro lf fetch repo reference
    cases h : lf.lookup_entry repo reference with
    | some p =>
      left
      rw [get_or_fetch_found lf fetch repo reference p h]
    | none =>
      right
      rw [get_or_fetch_absent lf fetch repo reference h]
  · intro lf fetch i
    unfold LockFile.ensure_up_to_date
    cases h : lf.lockdata[i]? with
    | none => left; rfl
    | some p =>
      obtain ⟨uri, e⟩ := p
      right
      rfl

/-- Helper: a validated git object id is a non-empty string. -/
theorem sha_ne_empty (t : String) (h : is_git_commit_sha t = true) : t ≠ "" :=
  fun he => by rw [he] at h; exact absurd h (by decide)

/-- Helper: a database path joined onto the registry root is a non-empty
string. -/
theorem resolve_registry_path_ne_empty (root rel : String) :
    resolve_registry_path root rel ≠ "" := by
  intro h
  have hone : ("/" : String).length = 1 := rfl
  have hlen : (resolve_registry_path root rel).length = 0 := by rw [h]; rfl
  unfold resolve_registry_path at hlen
  rw [String.length_append, String.length_append, hone] at hlen
  omega

/-- C3: `visit_object` succeeds only when exactly the location field
selected by the deserializer's `VersionDbType` is present (`git-tree` for
Git, `path` for Filesystem); both fields, neither field, or the other
type's field yield the schema-error outcome; and every produced entry has
exactly the matching one of its two location fields non-empty. -/
theorem C3_visit_object_exactly_one (d : VersionDbEntryDeserializer)
    (obj : VersionDbObj) :
    (∀ e, d.visit_object obj = some e →
        ((d.type = VersionDbType.Git ∧ obj.path = none ∧ obj.gitTree.isSome = true
            ∧ e.git_tree ≠ "" ∧ e.p = "")
          ∨ (d.type = VersionDbType.Filesystem ∧ obj.gitTree = none
            ∧ obj.path.isSome = true ∧ e.git_tree = "" ∧ e.p ≠ "")))
    ∧ (obj.gitTree.isSome = true → obj.path.isSome = true →
        d.visit_object obj = none)
    ∧ (obj.gitTree = none → obj.path = none → d.visit_object obj = none)
    ∧ (d.type = VersionDbType.Git → obj.gitTree = none → d.visit_object obj = none)
    ∧ (d.type = VersionDbType.Filesystem → obj.path = none →
        d.visit_object obj = none) := by
  obtain ⟨ty, root⟩ := d
  obtain ⟨ver, sch, gt, pa⟩ := obj
  refine ⟨?_, ?_, ?_, ?_, ?_⟩
  · intro e he
    cases ty with
    | Git =>
      cases gt with
      | none =>
        cases pa with
        | none => exact absurd he (by simp [VersionDbEntryDeserializer.visit_object])
        | some q => exact absurd he (by simp [VersionDbEntryDeserializer.visit_object])
      | some t =>
        cases pa with
        | some q => exact absurd he (by simp [VersionDbEntryDeserializer.visit_object])
        | none =>
          simp only [VersionDbEntryDeserializer.visit_object] at he
          by_cases hsha : is_git_commit_sha t = true
          · rw [if_pos hsha] at he
            cases he
            exact Or.inl ⟨rfl, rfl, rfl, sha_ne_empty t hsha, rfl⟩
          · rw [if_neg hsha] at he
            exact absurd he (by simp)
    | Filesystem =>
      cases gt with
      | some t =>
        cases pa with
        | none => exact absurd he (by simp [VersionDbEntryDeserializer.visit_object])
        | some q => exact absurd he (by simp [VersionDbEntryDeserializer.visit_object])
      | none =>
        cases pa with
        | none => exact absurd he (by simp [VersionDbEntryDeserializer.visit_object])
        | some q =>
          simp only [VersionDbEntryDeserializer.visit_object] at he
          cases he
          exact Or.inr ⟨rfl, rfl, rfl, rfl, resolve_registry_path_ne_empty root q⟩
  · intro hg hp
    cases gt with
    | none => simp at hg
    | some t =>
      cases pa with
      | none => simp at hp
      | some q => cases ty <;> rfl
  · intro hg hp
    cases hg
    cases hp
    cases ty <;> rfl
  · intro hty hg
    cases hty
    cases hg
    cases pa <;> rfl
  · intro hty hp
    cases hty
    cases hp
    cases gt <;> rfl

/-- Witness git object id: forty lowercase hex characters. -/
def exSha : String := "0123456789abcdef0123456789abcdef01234567"

/-- Witness deserializer for the git encoding. -/
def exGitDeser : VersionDbEntryDeserializer :=
  { type := VersionDbType.Git, registry_root := "ports" }

/-- Witness deserializer for the filesystem encoding. -/
def exFsDeser : VersionDbEntryDeserializer :=
  { type := VersionDbType.Filesystem, registry_root := "ports" }

/-- Witness version for the deserializer examples. -/
def exVer : Version := { text := "1.0.0", port_version := 0 }

/-- Witness for C3: a git-type entry with only a valid `git-tree` succeeds
with only `git_tree` populated, while a git-type entry carrying only a
`path` and a filesystem-type entry carrying only a `git-tree` both fail. -/
theorem C3_witness :
    ((exGitDeser.type = VersionDbType.Git
        ∧ (VersionDbObj.mk exVer VersionScheme.Relaxed (some exSha) none).path = none
        ∧ (VersionDbObj.mk exVer VersionScheme.Relaxed (some exSha) none).gitTree.isSome
            = true
        ∧ (VersionDbEntry.mk exVer VersionScheme.Relaxed exSha "").git_tree ≠ ""
        ∧ (VersionDbEntry.mk exVer VersionScheme.Relaxed exSha "").p = "")
      ∨ (exGitDeser.type = VersionDbType.Filesystem
        ∧ (VersionDbObj.mk exVer VersionScheme.Relaxed (some exSha) none).gitTree = none
        ∧ (VersionDbObj.mk exVer VersionScheme.Relaxed (some exSha) none).path.isSome
            = true
        ∧ (VersionDbEntry.mk exVer VersionScheme.Relaxed exSha "").git_tree = ""
        ∧ (VersionDbEntry.mk exVer VersionScheme.Relaxed exSha "").p ≠ ""))
    ∧ exGitDeser.visit_object
        (VersionDbObj.mk exVer VersionScheme.Relaxed none (some "x")) = none
    ∧ exFsDeser.visit_object
        (VersionDbObj.mk exVer VersionScheme.Relaxed (some exSha) none) = none :=
  ⟨(C3_visit_object_exactly_one exGitDeser
        (VersionDbObj.mk exVer VersionScheme.Relaxed (some exSha) none)).1
      (VersionDbEntry.mk exVer VersionScheme.Relaxed exSha "") (by decide),
    (C3_visit_object_exactly_one exGitDeser
        (VersionDbObj.mk exVer VersionScheme.Relaxed none (some "x"))).2.2.2.1 rfl rfl,
    (C3_visit_object_exactly_one exFsDeser
        (VersionDbObj.mk exVer VersionScheme.Relaxed (some exSha) none)).2.2.2.2 rfl rfl⟩

end VcpkgRegistries
